import Mathlib

/-!
Verification of the Windows split-tunnel controller
(`talpid-core/src/split_tunnel/windows/{mod.rs, driver.rs}`).

The definitions below are a shallow embedding of the relevant source
functions.  External effects (driver ioctls, OS channels, path resolution)
are made explicit: an embedded function returns the ioctl it issues, or
takes the outcome of an external call as an argument (an oracle), exactly
mirroring the control flow of the Rust source.

Conventions:
* machine integers are `Nat` (with explicit `% 2 ^ w` where the source
  truncates);
* fallible Rust code returns `Option`/`Except`;
* `OsString` values are opaque (`String` for paths, `List Nat` of UTF-16
  code units for device paths and decoded event strings);
* byte buffers are `List Nat`, read little-endian (the source uses
  native-endian x86-64 layout).
-/

/-! ### Addresses (`mod.rs`: `InterfaceAddresses`, `RESERVED_IP_V4`) -/

/-- An IPv4 address as its four octets (`std::net::Ipv4Addr`). -/
structure Ipv4Addr where
  o1 : Nat
  o2 : Nat
  o3 : Nat
  o4 : Nat
deriving DecidableEq

/-- An IPv6 address, kept opaque: the embedded code only ever compares,
copies and stores whole `Ipv6Addr` values. -/
structure Ipv6Addr where
  value : Nat
deriving DecidableEq

/-- `mod.rs` line 47: `RESERVED_IP_V4 = Ipv4Addr::new(192, 0, 2, 123)`. -/
def RESERVED_IP_V4 : Ipv4Addr := ⟨192, 0, 2, 123⟩

/-- `std::net::IpAddr`. -/
inductive IpAddr
  | v4 (addr : Ipv4Addr)
  | v6 (addr : Ipv6Addr)
deriving DecidableEq

/-- `mod.rs` lines 152-158: `struct InterfaceAddresses` (all fields
optional, `Default` = all `None`, `PartialEq` is structural). -/
structure InterfaceAddresses where
  tunnel_ipv4 : Option Ipv4Addr
  tunnel_ipv6 : Option Ipv6Addr
  internet_ipv4 : Option Ipv4Addr
  internet_ipv6 : Option Ipv6Addr
deriving DecidableEq

instance : Inhabited InterfaceAddresses := ⟨⟨none, none, none, none⟩⟩

/-- `#[derive(Default)]` on `InterfaceAddresses`. -/
def InterfaceAddresses.defaultAddrs : InterfaceAddresses := ⟨none, none, none, none⟩

/-! ### The request serialiser's `RegisterIps` branch
(`mod.rs` lines 404-431, inside `spawn_request_thread`). -/

/-- Error type of `mod.rs` (`enum Error`), restricted to the variants the
embedded operations can produce. -/
inductive StError
  | SetConfiguration
  | RegisterIps
  | ClearIps
  | RequestThreadStuck
  | RequestThreadDown
  | AlreadySettingPaths
deriving DecidableEq

/-- Decidable equality for `Except` results. -/
instance {e a : Type} [DecidableEq e] [DecidableEq a] : DecidableEq (Except e a)
  | Except.ok x, Except.ok y =>
    if h : x = y then isTrue (congrArg Except.ok h)
    else isFalse (fun hc => h (Except.ok.inj hc))
  | Except.ok _, Except.error _ => isFalse (fun hc => Except.noConfusion hc)
  | Except.error _, Except.ok _ => isFalse (fun hc => Except.noConfusion hc)
  | Except.error x, Except.error y =>
    if h : x = y then isTrue (congrArg Except.error h)
    else isFalse (fun hc => h (Except.error.inj hc))

/-- `mod.rs` lines 405-408: if both internet addresses are absent, the
tunnel addresses are forced absent before anything else happens. -/
def normalizeIps (ips : InterfaceAddresses) : InterfaceAddresses :=
  if ips.internet_ipv4.isNone && ips.internet_ipv6.isNone then
    { ips with tunnel_ipv4 := none, tunnel_ipv6 := none }
  else ips

/-- Result of one `Request::RegisterIps` handled by the serialiser thread:
`sent` is the address set passed to `DeviceHandle::register_ips` (the one
ioctl), if any; `newPrevious` is the cache `previous_addresses` afterwards;
`response` is what is sent back on the reply channel. -/
structure RegisterIpsOutcome where
  sent : Option InterfaceAddresses
  newPrevious : InterfaceAddresses
  response : Except StError Unit

/-- `mod.rs` lines 404-431: normalise the request (`normalizeIps` is the
in-place mutation of lines 405-408), short-circuit on equality with
`previous_addresses`, otherwise issue the single `register_ips` ioctl
(outcome `ioctlOk` supplied by the driver) and cache on success. -/
def registerIpsStep (previous ips0 : InterfaceAddresses) (ioctlOk : Bool) :
    RegisterIpsOutcome :=
  if previous = normalizeIps ips0 then
    { sent := none, newPrevious := previous, response := Except.ok () }
  else if ioctlOk then
    { sent := some (normalizeIps ips0), newPrevious := normalizeIps ips0,
      response := Except.ok () }
  else
    { sent := some (normalizeIps ips0), newPrevious := previous,
      response := Except.error StError.RegisterIps }

/-- Serialiser loop restricted to `RegisterIps` requests: processes a list
of (request, ioctl outcome) pairs in FIFO order, returning the final cache
and the number of `RegisterIpAddresses` ioctls issued. -/
def registerIpsRun (previous : InterfaceAddresses) :
    List (InterfaceAddresses × Bool) → InterfaceAddresses × Nat
  | [] => (previous, 0)
  | (ips, ok) :: rest =>
    let out := registerIpsStep previous ips ok
    let next := registerIpsRun out.newPrevious rest
    (next.1, (if out.sent.isSome then 1 else 0) + next.2)

lemma registerIpsStep_sent (previous ips0 : InterfaceAddresses) (ok : Bool) :
    (registerIpsStep previous ips0 ok).sent =
      if previous = normalizeIps ips0 then none else some (normalizeIps ips0) := by
  unfold registerIpsStep
  by_cases h : previous = normalizeIps ips0
  · simp [h]
  · cases ok <;> simp [h]

lemma registerIpsStep_newPrevious (previous ips0 : InterfaceAddresses) (ok : Bool) :
    (registerIpsStep previous ips0 ok).newPrevious =
      if previous ≠ normalizeIps ips0 ∧ ok = true then normalizeIps ips0
      else previous := by
  unfold registerIpsStep
  by_cases h : previous = normalizeIps ips0
  · simp [h]
  · cases ok <;> simp [h]

lemma registerIpsStep_response (previous ips0 : InterfaceAddresses) (ok : Bool) :
    (registerIpsStep previous ips0 ok).response =
      if previous ≠ normalizeIps ips0 ∧ ok = false then
        Except.error StError.RegisterIps
      else Except.ok () := by
  unfold registerIpsStep
  by_cases h : previous = normalizeIps ips0
  · simp [h]
  · cases ok <;> simp [h]

/-- C1: for every `RegisterIps` request whose `internet_ipv4` and
`internet_ipv6` are both absent, any address set actually sent to the
driver has `tunnel_ipv4` and `tunnel_ipv6` absent as well, and the cache
afterwards is either that sent set or the unchanged old cache. -/
theorem c1_register_ips_invariant
    (previous ips : InterfaceAddresses) (ioctlOk : Bool)
    (a : InterfaceAddresses)
    (h4 : ips.internet_ipv4 = none) (h6 : ips.internet_ipv6 = none)
    (hsent : (registerIpsStep previous ips ioctlOk).sent = some a) :
    a.tunnel_ipv4 = none ∧ a.tunnel_ipv6 = none ∧
      ((registerIpsStep previous ips ioctlOk).newPrevious = a ∨
        (registerIpsStep previous ips ioctlOk).newPrevious = previous) := by
  have hnorm : normalizeIps ips =
      { ips with tunnel_ipv4 := none, tunnel_ipv6 := none } := by
    simp [normalizeIps, h4, h6]
  rw [registerIpsStep_sent] at hsent
  by_cases h : previous = normalizeIps ips
  · rw [if_pos h] at hsent
    exact absurd hsent (by simp)
  · rw [if_neg h] at hsent
    have ha : normalizeIps ips = a := Option.some.inj hsent
    subst ha
    refine ⟨by rw [hnorm], by rw [hnorm], ?_⟩
    rw [registerIpsStep_newPrevious]
    cases ioctlOk
    · right
      simp
    · left
      simp [h]

/-- Witness for `c1_register_ips_invariant` at a concrete input. -/
theorem c1_register_ips_invariant_witness :
    (InterfaceAddresses.defaultAddrs).tunnel_ipv4 = none ∧
      (InterfaceAddresses.defaultAddrs).tunnel_ipv6 = none ∧
      ((registerIpsStep
          ⟨some ⟨10, 0, 0, 1⟩, none, some ⟨192, 168, 1, 1⟩, none⟩
          ⟨some ⟨10, 0, 0, 1⟩, none, none, none⟩ true).newPrevious =
          InterfaceAddresses.defaultAddrs ∨
        (registerIpsStep
          ⟨some ⟨10, 0, 0, 1⟩, none, some ⟨192, 168, 1, 1⟩, none⟩
          ⟨some ⟨10, 0, 0, 1⟩, none, none, none⟩ true).newPrevious =
          ⟨some ⟨10, 0, 0, 1⟩, none, some ⟨192, 168, 1, 1⟩, none⟩) :=
  c1_register_ips_invariant
    ⟨some ⟨10, 0, 0, 1⟩, none, some ⟨192, 168, 1, 1⟩, none⟩
    ⟨some ⟨10, 0, 0, 1⟩, none, none, none⟩ true
    InterfaceAddresses.defaultAddrs rfl rfl (by decide)

/-- C2 counterexample: starting from the initial cache (`Default`), two
consecutive identical `RegisterIps` requests (both carrying the default,
all-absent address set, as issued by `clear_tunnel_addresses`) result in
zero ioctls, not exactly one: both short-circuit on the cache. -/
theorem c2_dedup_counterexample :
    (registerIpsRun InterfaceAddresses.defaultAddrs
        [(InterfaceAddresses.defaultAddrs, true),
          (InterfaceAddresses.defaultAddrs, true)]).2 = 0 ∧
      (registerIpsRun InterfaceAddresses.defaultAddrs
        [(InterfaceAddresses.defaultAddrs, true),
          (InterfaceAddresses.defaultAddrs, true)]).2 ≠ 1 := by
  refine ⟨by decide, by decide⟩

/-- C2 (amended): `RegisterIps` short-circuits (no ioctl, `Ok`) exactly
when the normalised addresses equal the cached snapshot; otherwise it
issues exactly one ioctl with the normalised addresses, updates the cache
exactly when that ioctl succeeds, and reports the ioctl's outcome.  Hence
two consecutive identical `RegisterIps` whose first ioctl (if issued)
succeeds result in exactly one ioctl when the normalised addresses differ
from the cached snapshot, and in zero ioctls when they equal it. -/
theorem c2_register_ips_dedup
    (previous ips : InterfaceAddresses) (ioctlOk ok2 : Bool) :
    ((registerIpsStep previous ips ioctlOk).sent =
        if previous = normalizeIps ips then none else some (normalizeIps ips)) ∧
      ((registerIpsStep previous ips ioctlOk).newPrevious =
        if previous ≠ normalizeIps ips ∧ ioctlOk = true then normalizeIps ips
        else previous) ∧
      ((registerIpsStep previous ips ioctlOk).response =
        if previous ≠ normalizeIps ips ∧ ioctlOk = false then
          Except.error StError.RegisterIps
        else Except.ok ()) ∧
      ((registerIpsRun previous [(ips, true), (ips, ok2)]).2 =
        if previous = normalizeIps ips then 0 else 1) := by
  refine ⟨registerIpsStep_sent previous ips ioctlOk,
    registerIpsStep_newPrevious previous ips ioctlOk,
    registerIpsStep_response previous ips ioctlOk, ?_⟩
  by_cases h : previous = normalizeIps ips
  · simp [registerIpsRun, registerIpsStep_sent, registerIpsStep_newPrevious, h]
  · simp [registerIpsRun, registerIpsStep_sent, registerIpsStep_newPrevious, h]

/-! ### The request serialiser's `SetPaths` branch and
`DeviceHandle::set_config` (`mod.rs` lines 381-403, `driver.rs` lines
360-396). -/

/-- Outcome of `get_device_path` for one configured path (`driver.rs`
lines 363-374): success with the resolved NT device path, a not-found
error (unmounted volume), or any other I/O error. -/
inductive ResolveResult
  | ok (devicePath : String)
  | notFound
  | otherError
deriving DecidableEq

/-- The configuration ioctl issued to the driver. -/
inductive ConfigIoctl
  | setConfiguration (entries : List String)
  | clearConfiguration
deriving DecidableEq

/-- `driver.rs` lines 361-374: build `device_paths` from `apps`, dropping
paths whose resolution fails with not-found and aborting on any other
resolution error (`None` models the early `return Err(error)`). -/
def resolveDevicePaths (resolve : String → ResolveResult) :
    List String → Option (List String)
  | [] => some []
  | p :: rest =>
    match resolve p with
    | ResolveResult.notFound => resolveDevicePaths resolve rest
    | ResolveResult.otherError => none
    | ResolveResult.ok dp => (resolveDevicePaths resolve rest).map (dp :: ·)

/-- `driver.rs` lines 360-396: `DeviceHandle::set_config`.  Returns the
ioctl issued, or `none` when path resolution failed with a hard error. -/
def set_config (resolve : String → ResolveResult) (apps : List String) :
    Option ConfigIoctl :=
  match resolveDevicePaths resolve apps with
  | none => none
  | some [] => some ConfigIoctl.clearConfiguration
  | some devicePaths => some (ConfigIoctl.setConfiguration devicePaths)

/-- `mod.rs` lines 384-388 (`Request::SetPaths` branch): non-empty lists
go through `set_config`, the empty list goes straight to `clear_config`. -/
def setPathsIoctl (resolve : String → ResolveResult) (paths : List String) :
    Option ConfigIoctl :=
  if paths.length > 0 then set_config resolve paths
  else some ConfigIoctl.clearConfiguration

lemma resolveDevicePaths_all_notFound (resolve : String → ResolveResult) :
    ∀ paths : List String, (∀ p ∈ paths, resolve p = ResolveResult.notFound) →
      resolveDevicePaths resolve paths = some []
  | [], _ => rfl
  | p :: rest, h => by
    have hp : resolve p = ResolveResult.notFound := h p (List.mem_cons_self p rest)
    have hrest := resolveDevicePaths_all_notFound resolve rest
      (fun q hq => h q (List.mem_cons_of_mem p hq))
    simp [resolveDevicePaths, hp, hrest]

lemma resolveDevicePaths_filterMap (resolve : String → ResolveResult) :
    ∀ (paths l : List String), resolveDevicePaths resolve paths = some l →
      l = paths.filterMap (fun p =>
        match resolve p with
        | ResolveResult.ok dp => some dp
        | _ => none)
  | [], l, h => by
    simp [resolveDevicePaths] at h
    subst h
    simp
  | p :: rest, l, h => by
    rw [List.filterMap_cons]
    cases hp : resolve p with
    | ok dp =>
      rw [resolveDevicePaths, hp] at h
      cases hrest : resolveDevicePaths resolve rest with
      | none => rw [hrest] at h; exact absurd h (by simp)
      | some l' =>
        rw [hrest] at h
        have hl : dp :: l' = l := by simpa using h
        have ih := resolveDevicePaths_filterMap resolve rest l' hrest
        simp [hp, ← hl, ih]
    | notFound =>
      rw [resolveDevicePaths, hp] at h
      have := resolveDevicePaths_filterMap resolve rest l h
      simp [hp, this]
    | otherError =>
      rw [resolveDevicePaths, hp] at h
      exact absurd h (by simp)

/-- C3: `SetPaths([])` issues `ClearConfiguration`; a `SetConfiguration`
ioctl is never issued with zero entries; every not-found path is dropped
(the entries are exactly the successfully resolved device paths); hence
when every supplied path resolves to not-found, `set_config` issues
`ClearConfiguration`. -/
theorem c3_set_paths_clear (resolve : String → ResolveResult)
    (paths l : List String)
    (hall : ∀ p ∈ paths, resolve p = ResolveResult.notFound)
    (hres : resolveDevicePaths resolve paths = some l) :
    setPathsIoctl resolve [] = some ConfigIoctl.clearConfiguration ∧
      (∀ paths' : List String,
        setPathsIoctl resolve paths' ≠ some (ConfigIoctl.setConfiguration [])) ∧
      l = paths.filterMap (fun p =>
        match resolve p with
        | ResolveResult.ok dp => some dp
        | _ => none) ∧
      setPathsIoctl resolve paths = some ConfigIoctl.clearConfiguration := by
  refine ⟨rfl, ?_, resolveDevicePaths_filterMap resolve paths l hres, ?_⟩
  · intro paths'
    rw [setPathsIoctl]
    by_cases hlen : paths'.length > 0
    · rw [if_pos hlen, set_config]
      cases hr : resolveDevicePaths resolve paths' with
      | none => simp
      | some dps => cases dps <;> simp
    · rw [if_neg hlen]
      simp
  · rw [setPathsIoctl]
    by_cases hlen : paths.length > 0
    · rw [if_pos hlen, set_config, resolveDevicePaths_all_notFound resolve paths hall]
    · rw [if_neg hlen]

/-- Witness for `c3_set_paths_clear`: a single path on an unmounted
volume. -/
theorem c3_set_paths_clear_witness :
    setPathsIoctl (fun _ => ResolveResult.notFound) []
        = some ConfigIoctl.clearConfiguration ∧
      (∀ paths' : List String,
        setPathsIoctl (fun _ => ResolveResult.notFound) paths'
          ≠ some (ConfigIoctl.setConfiguration [])) ∧
      ([] : List String) = (["E:\\a.exe"].filterMap (fun p =>
        match (fun _ => ResolveResult.notFound) p with
        | ResolveResult.ok dp => some dp
        | _ => none)) ∧
      setPathsIoctl (fun _ => ResolveResult.notFound) ["E:\\a.exe"]
        = some ConfigIoctl.clearConfiguration :=
  c3_set_paths_clear (fun _ => ResolveResult.notFound) ["E:\\a.exe"] []
    (fun _ _ => rfl) rfl

/-! ### Request/reply round-trips (`mod.rs` lines 150, 474-533). -/

/-- `mod.rs` line 150: `REQUEST_TIMEOUT = Duration::from_secs(5)`, in
milliseconds. -/
def REQUEST_TIMEOUT_MILLIS : Nat := 5000

/-- What happens on the reply channel of one request: either the
serialiser side of the channel is dropped, or a reply with the given
result arrives after `delayMillis`. -/
inductive ReplyOutcome
  | senderDropped
  | reply (delayMillis : Nat) (result : Except StError Unit)

/-- `mod.rs` lines 478-488: `SplitTunnel::send_request_inner`.  A failed
`send` yields `RequestThreadDown`; `recv_timeout(REQUEST_TIMEOUT)` maps
any failure (timeout or disconnect) to `RequestThreadStuck`. -/
def send_request_inner (sendOk : Bool) (o : ReplyOutcome) :
    Except StError Unit :=
  if sendOk = false then Except.error StError.RequestThreadDown
  else
    match o with
    | ReplyOutcome.senderDropped => Except.error StError.RequestThreadStuck
    | ReplyOutcome.reply d r =>
      if REQUEST_TIMEOUT_MILLIS < d then Except.error StError.RequestThreadStuck
      else r

/-- `mod.rs` lines 522-527: the `wait_task` closure of the asynchronous
`SplitTunnel::set_paths`.  A failed `send` yields `RequestThreadDown`;
the blocking `recv()` has no timeout and maps a disconnect to
`RequestThreadDown`. -/
def set_paths_wait_task (sendOk : Bool) (o : ReplyOutcome) :
    Except StError Unit :=
  if sendOk = false then Except.error StError.RequestThreadDown
  else
    match o with
    | ReplyOutcome.senderDropped => Except.error StError.RequestThreadDown
    | ReplyOutcome.reply _ r => r

/-- C6 counterexample: a reply taking 6 seconds yields
`RequestThreadStuck` through `send_request_inner`, but the asynchronous
`set_paths` wait task returns the reply's own result: its `recv()` has no
5-second timeout, so the claimed timeout behaviour does not hold for the
asynchronous `set_paths` path. -/
theorem c6_async_timeout_counterexample :
    send_request_inner true (ReplyOutcome.reply 6000 (Except.ok ()))
        = Except.error StError.RequestThreadStuck ∧
      set_paths_wait_task true (ReplyOutcome.reply 6000 (Except.ok ()))
        = Except.ok () ∧
      set_paths_wait_task true (ReplyOutcome.reply 6000 (Except.ok ()))
        ≠ Except.error StError.RequestThreadStuck := by
  refine ⟨rfl, rfl, by simp [set_paths_wait_task]⟩

/-- C6 (amended): every request sent through `send_request_inner` (the
synchronous operations: `set_paths_sync`, `clear_tunnel_addresses`, the
route-callback `register_ips`) blocks on its reply channel with the
5-second `REQUEST_TIMEOUT`: a reply later than 5 seconds (or a dropped
reply channel) yields `RequestThreadStuck`, and a failure to send on the
request channel yields `RequestThreadDown`.  The asynchronous `set_paths`
task, however, waits without any timeout: it yields the reply's result no
matter how late the reply is, and maps both a send failure and a dropped
reply channel to `RequestThreadDown` (never `RequestThreadStuck`). -/
theorem c6_request_timeout_behavior (o : ReplyOutcome) (d : Nat)
    (r : Except StError Unit) :
    send_request_inner false o = Except.error StError.RequestThreadDown ∧
      send_request_inner true (ReplyOutcome.reply d r)
        = (if REQUEST_TIMEOUT_MILLIS < d then
            Except.error StError.RequestThreadStuck
          else r) ∧
      send_request_inner true ReplyOutcome.senderDropped
        = Except.error StError.RequestThreadStuck ∧
      set_paths_wait_task false o = Except.error StError.RequestThreadDown ∧
      set_paths_wait_task true ReplyOutcome.senderDropped
        = Except.error StError.RequestThreadDown ∧
      set_paths_wait_task true (ReplyOutcome.reply d r) = r := by
  refine ⟨rfl, rfl, rfl, rfl, rfl, rfl⟩

/-! ### The asynchronous `set_paths` in-progress guard
(`mod.rs` lines 501-533). -/

/-- State relevant to the asynchronous `set_paths`: the
`async_path_update_in_progress` flag and the requests enqueued on the
serialiser channel. -/
structure PathsState where
  inProgress : Bool
  queued : List (List String)
deriving DecidableEq

/-- Result of one `SplitTunnel::set_paths` call: the error sent
immediately on `result_tx` (if any), whether a blocking task was spawned,
and the state afterwards. -/
structure SetPathsCall where
  immediateError : Option StError
  taskSpawned : Bool
  after : PathsState
deriving DecidableEq

/-- `mod.rs` lines 501-533: `SplitTunnel::set_paths`.  The atomic
`swap(true, SeqCst)` sets the flag and returns the old value; when the old
value was `true` the call immediately sends `AlreadySettingPaths` and
enqueues nothing; otherwise a blocking task is spawned whose `wait_task`
sends the one request on the serialiser channel. -/
def set_paths_call (st : PathsState) (paths : List String) : SetPathsCall :=
  let busy := st.inProgress
  let st1 : PathsState := { st with inProgress := true }
  if busy then
    { immediateError := some StError.AlreadySettingPaths,
      taskSpawned := false, after := st1 }
  else
    { immediateError := none, taskSpawned := true,
      after := { st1 with queued := st1.queued ++ [paths] } }

/-- `mod.rs` lines 529-532: when the spawned task finishes (whatever the
result it sent), `in_progress.store(false, SeqCst)` clears the flag. -/
def set_paths_task_finish (st : PathsState) : PathsState :=
  { st with inProgress := false }

/-- C9: when an asynchronous path update is already in progress, a second
`set_paths` call immediately reports `AlreadySettingPaths`, spawns no task
and enqueues nothing; when none is in progress, the call sets the flag and
enqueues exactly one request; and finishing the spawned task always clears
the flag. -/
theorem c9_async_guard (st st2 : PathsState) (paths : List String)
    (hbusy : st.inProgress = true) (hfree : st2.inProgress = false) :
    ((set_paths_call st paths).immediateError = some StError.AlreadySettingPaths ∧
      (set_paths_call st paths).taskSpawned = false ∧
      (set_paths_call st paths).after.queued = st.queued) ∧
      ((set_paths_call st2 paths).immediateError = none ∧
        (set_paths_call st2 paths).taskSpawned = true ∧
        (set_paths_call st2 paths).after.inProgress = true ∧
        (set_paths_call st2 paths).after.queued = st2.queued ++ [paths]) ∧
      (∀ st3 : PathsState, (set_paths_task_finish st3).inProgress = false) := by
  refine ⟨?_, ?_, fun st3 => rfl⟩
  · simp [set_paths_call, hbusy]
  · simp [set_paths_call, hfree]

/-- Witness for `c9_async_guard` at concrete states. -/
theorem c9_async_guard_witness :
    ((set_paths_call ⟨true, []⟩ ["C:\\a.exe"]).immediateError
        = some StError.AlreadySettingPaths ∧
      (set_paths_call ⟨true, []⟩ ["C:\\a.exe"]).taskSpawned = false ∧
      (set_paths_call ⟨true, []⟩ ["C:\\a.exe"]).after.queued = []) ∧
      ((set_paths_call ⟨false, []⟩ ["C:\\a.exe"]).immediateError = none ∧
        (set_paths_call ⟨false, []⟩ ["C:\\a.exe"]).taskSpawned = true ∧
        (set_paths_call ⟨false, []⟩ ["C:\\a.exe"]).after.inProgress = true ∧
        (set_paths_call ⟨false, []⟩ ["C:\\a.exe"]).after.queued
          = [] ++ [["C:\\a.exe"]]) ∧
      (∀ st3 : PathsState, (set_paths_task_finish st3).inProgress = false) :=
  c9_async_guard ⟨true, []⟩ ⟨false, []⟩ ["C:\\a.exe"] rfl rfl

/-! ### `SplitTunnel::set_tunnel_addresses` address selection
(`mod.rs` lines 537-558). -/

/-- `mod.rs` lines 538-550: iterate over `metadata.ips`, overwriting
`tunnel_ipv4` for every IPv4 and `tunnel_ipv6` for every IPv6 seen, then
substitute `RESERVED_IP_V4` when no IPv4 was picked (also when `metadata`
is `None`).  `metadata` is reduced to its advertised IP list, the only
field the function reads. -/
def set_tunnel_addresses_selection (metadata : Option (List IpAddr)) :
    Option Ipv4Addr × Option Ipv6Addr :=
  let st :=
    match metadata with
    | none => ((none : Option Ipv4Addr), (none : Option Ipv6Addr))
    | some ips =>
      ips.foldl (fun st ip =>
        match ip with
        | IpAddr.v4 addr => (some addr, st.2)
        | IpAddr.v6 addr => (st.1, some addr)) (none, none)
  (some (st.1.getD RESERVED_IP_V4), st.2)

/-- For the amended claim: the last IPv4 address of an advertised IP
list. -/
def lastIpv4 (metadata : Option (List IpAddr)) : Option Ipv4Addr :=
  match metadata with
  | none => none
  | some ips =>
    ips.foldl (fun acc ip =>
      match ip with
      | IpAddr.v4 addr => some addr
      | IpAddr.v6 _ => acc) none

/-- For the amended claim: the last IPv6 address of an advertised IP
list. -/
def lastIpv6 (metadata : Option (List IpAddr)) : Option Ipv6Addr :=
  match metadata with
  | none => none
  | some ips =>
    ips.foldl (fun acc ip =>
      match ip with
      | IpAddr.v4 _ => acc
      | IpAddr.v6 addr => some addr) none

lemma selection_foldl_split (ips : List IpAddr) :
    ∀ t4 : Option Ipv4Addr, ∀ t6 : Option Ipv6Addr,
      ips.foldl (fun st ip =>
        match ip with
        | IpAddr.v4 addr => (some addr, st.2)
        | IpAddr.v6 addr => (st.1, some addr)) (t4, t6) =
      (ips.foldl (fun acc ip =>
          match ip with
          | IpAddr.v4 addr => some addr
          | IpAddr.v6 _ => acc) t4,
        ips.foldl (fun acc ip =>
          match ip with
          | IpAddr.v4 _ => acc
          | IpAddr.v6 addr => some addr) t6) := by
  induction ips with
  | nil => intro t4 t6; rfl
  | cons ip rest ih =>
    intro t4 t6
    cases ip with
    | v4 addr => simpa using ih (some addr) t6
    | v6 addr => simpa using ih t4 (some addr)

/-- C4 counterexample: with two advertised IPv4 addresses
`[10.64.0.1, 10.64.0.2]`, `set_tunnel_addresses` picks `10.64.0.2` — the
last one, not the first one claimed. -/
theorem c4_first_ip_counterexample :
    (set_tunnel_addresses_selection
        (some [IpAddr.v4 ⟨10, 64, 0, 1⟩, IpAddr.v4 ⟨10, 64, 0, 2⟩])).1
        ≠ some ⟨10, 64, 0, 1⟩ ∧
      set_tunnel_addresses_selection
        (some [IpAddr.v4 ⟨10, 64, 0, 1⟩, IpAddr.v4 ⟨10, 64, 0, 2⟩])
        = (some ⟨10, 64, 0, 2⟩, none) := by
  refine ⟨by decide, by decide⟩

/-- C4 (amended): for every metadata argument, `set_tunnel_addresses`
selects the last IPv4 address and the last IPv6 address of the tunnel's
advertised IP list as `tunnel_ipv4` and `tunnel_ipv6`, and substitutes
the sentinel `192.0.2.123` for `tunnel_ipv4` when the list contains no
IPv4 address (or metadata is absent). -/
theorem c4_last_ip_selection (metadata : Option (List IpAddr)) :
    set_tunnel_addresses_selection metadata =
      (some ((lastIpv4 metadata).getD RESERVED_IP_V4), lastIpv6 metadata) := by
  cases metadata with
  | none => rfl
  | some ips =>
    simp only [set_tunnel_addresses_selection, lastIpv4, lastIpv6]
    rw [selection_foldl_split ips none none]

/-! ### `DeviceHandle::new` (`driver.rs` lines 212-258). -/

/-- `driver.rs` lines 71-86: the driver state machine values. -/
inductive DriverState
  | None
  | Started
  | Initialized
  | Ready
  | Engaged
  | Terminating
deriving DecidableEq, Fintype

/-- Outcome of opening `\\.\MULLVADSPLITTUNNEL` (`driver.rs` lines
215-226), as reported by the OS. -/
inductive DeviceOpenResult
  | success
  | fileNotFound
  | accessDenied
  | otherError
deriving DecidableEq, Fintype

/-- `driver.rs` lines 179-209: `enum DeviceHandleError`. -/
inductive DeviceHandleError
  | ConnectionFailed
  | ConnectionDenied
  | ConnectionError
  | GetStateError
  | InitializationError
  | RegisterProcessesError
  | ClearConfigError
deriving DecidableEq, Fintype

/-- Everything the environment decides during `DeviceHandle::new`: the
open outcome, the results of the two `get_driver_state` queries (`none`
models an I/O or unknown-state error), and whether each of the three
mutation ioctls succeeds. -/
structure DriverOracle where
  openResult : DeviceOpenResult
  state1 : Option DriverState
  initOk : Bool
  state2 : Option DriverState
  registerOk : Bool
  clearOk : Bool
deriving DecidableEq, Fintype

/-- The driver operations `DeviceHandle::new` can issue, in order. -/
inductive DriverOp
  | getState
  | initDriver
  | registerProcesses
  | clearConfig
deriving DecidableEq, Fintype

/-- `driver.rs` lines 212-258: `DeviceHandle::new`.  Maps the open error
(file-not-found → `ConnectionFailed`, access-denied → `ConnectionDenied`,
other → `ConnectionError`), queries the state, initialises if `Started`,
re-queries, registers processes if `Initialized`, then unconditionally
clears the configuration.  Returns the ordered list of driver operations
issued and the overall result. -/
def deviceHandleNew (o : DriverOracle) :
    List DriverOp × Except DeviceHandleError Unit :=
  match o.openResult with
  | DeviceOpenResult.fileNotFound =>
    ([], Except.error DeviceHandleError.ConnectionFailed)
  | DeviceOpenResult.accessDenied =>
    ([], Except.error DeviceHandleError.ConnectionDenied)
  | DeviceOpenResult.otherError =>
    ([], Except.error DeviceHandleError.ConnectionError)
  | DeviceOpenResult.success =>
    match o.state1 with
    | none => ([DriverOp.getState], Except.error DeviceHandleError.GetStateError)
    | some s1 =>
      if s1 = DriverState.Started ∧ o.initOk = false then
        ([DriverOp.getState, DriverOp.initDriver],
          Except.error DeviceHandleError.InitializationError)
      else
        let opsA := if s1 = DriverState.Started then
            [DriverOp.getState, DriverOp.initDriver]
          else [DriverOp.getState]
        match o.state2 with
        | none =>
          (opsA ++ [DriverOp.getState], Except.error DeviceHandleError.GetStateError)
        | some s2 =>
          if s2 = DriverState.Initialized ∧ o.registerOk = false then
            (opsA ++ [DriverOp.getState, DriverOp.registerProcesses],
              Except.error DeviceHandleError.RegisterProcessesError)
          else
            let opsB := opsA ++ (if s2 = DriverState.Initialized then
                [DriverOp.getState, DriverOp.registerProcesses]
              else [DriverOp.getState])
            if o.clearOk then (opsB ++ [DriverOp.clearConfig], Except.ok ())
            else (opsB ++ [DriverOp.clearConfig],
              Except.error DeviceHandleError.ClearConfigError)

/-- C5 counterexample: when both state queries report `None` and
`clear_config` succeeds, `DeviceHandle::new` returns `Ok` having issued
exactly two `GetState` queries (there is no third re-query before
`clear_config`) and without ever observing the driver in `Ready` or
higher. -/
theorem c5_open_counterexample :
    (deviceHandleNew
        ⟨DeviceOpenResult.success, some DriverState.None, true,
          some DriverState.None, true, true⟩).2 = Except.ok () ∧
      (deviceHandleNew
        ⟨DeviceOpenResult.success, some DriverState.None, true,
          some DriverState.None, true, true⟩).1
        = [DriverOp.getState, DriverOp.getState, DriverOp.clearConfig] ∧
      (deviceHandleNew
        ⟨DeviceOpenResult.success, some DriverState.None, true,
          some DriverState.None, true, true⟩).1.count DriverOp.getState ≠ 3 := by
  refine ⟨by decide, by decide, by decide⟩

/-- C5 (amended): `DeviceHandle::new` maps open errors exactly as claimed
(file-not-found → `ConnectionFailed`, access-denied → `ConnectionDenied`,
other → `ConnectionError`); on every successful run it performs exactly
two state queries, calls `initialize` if and only if the first query
returned `Started`, calls `register_processes` if and only if the second
query returned `Initialized`, and ends with an unconditional
`clear_config` (no third query); `Ok` is returned only when every issued
operation succeeded, but the driver need not have been observed in
`Ready` or higher. -/
theorem c5_open_characterization (o : DriverOracle) :
    (o.openResult = DeviceOpenResult.fileNotFound →
        deviceHandleNew o = ([], Except.error DeviceHandleError.ConnectionFailed)) ∧
      (o.openResult = DeviceOpenResult.accessDenied →
        deviceHandleNew o = ([], Except.error DeviceHandleError.ConnectionDenied)) ∧
      (o.openResult = DeviceOpenResult.otherError →
        deviceHandleNew o = ([], Except.error DeviceHandleError.ConnectionError)) ∧
      ((deviceHandleNew o).2 = Except.ok () →
        (deviceHandleNew o).1.count DriverOp.getState = 2 ∧
        (deviceHandleNew o).1.getLast? = some DriverOp.clearConfig ∧
        (DriverOp.initDriver ∈ (deviceHandleNew o).1 ↔
          o.state1 = some DriverState.Started) ∧
        (DriverOp.registerProcesses ∈ (deviceHandleNew o).1 ↔
          o.state2 = some DriverState.Initialized) ∧
        o.clearOk = true ∧
        (o.state1 = some DriverState.Started → o.initOk = true) ∧
        (o.state2 = some DriverState.Initialized → o.registerOk = true)) := by
  refine ⟨fun h => ?_, fun h => ?_, fun h => ?_, fun hok => ?_⟩ <;>
    obtain ⟨op, s1, i, s2, r, c⟩ := o
  · cases op <;> simp_all [deviceHandleNew]
  · cases op <;> simp_all [deviceHandleNew]
  · cases op <;> simp_all [deviceHandleNew]
  · cases op
    case fileNotFound => simp [deviceHandleNew] at hok
    case accessDenied => simp [deviceHandleNew] at hok
    case otherError => simp [deviceHandleNew] at hok
    case success =>
      rcases s1 with _ | s1v
      · simp [deviceHandleNew] at hok
      · rcases s2 with _ | s2v
        · cases s1v <;> cases i <;> simp [deviceHandleNew] at hok
        · cases s1v <;> cases s2v <;> cases i <;> cases r <;> cases c <;>
            revert hok <;> decide

/-- Witness for `c5_open_characterization`: a run where the driver starts
in `Started`, is initialised, registers processes and is cleared. -/
theorem c5_open_characterization_witness :
    (deviceHandleNew
        ⟨DeviceOpenResult.success, some DriverState.Started, true,
          some DriverState.Initialized, true, true⟩).1.count DriverOp.getState = 2 ∧
      (deviceHandleNew
        ⟨DeviceOpenResult.success, some DriverState.Started, true,
          some DriverState.Initialized, true, true⟩).1.getLast?
        = some DriverOp.clearConfig ∧
      (DriverOp.initDriver ∈ (deviceHandleNew
        ⟨DeviceOpenResult.success, some DriverState.Started, true,
          some DriverState.Initialized, true, true⟩).1 ↔
        (some DriverState.Started : Option DriverState) = some DriverState.Started) ∧
      (DriverOp.registerProcesses ∈ (deviceHandleNew
        ⟨DeviceOpenResult.success, some DriverState.Started, true,
          some DriverState.Initialized, true, true⟩).1 ↔
        (some DriverState.Initialized : Option DriverState)
          = some DriverState.Initialized) ∧
      True = true ∧
      ((some DriverState.Started : Option DriverState) = some DriverState.Started →
        True = true) ∧
      ((some DriverState.Initialized : Option DriverState)
          = some DriverState.Initialized → True = true) := by
  have h := (c5_open_characterization
    ⟨DeviceOpenResult.success, some DriverState.Started, true,
      some DriverState.Initialized, true, true⟩).2.2.2 (by decide)
  exact ⟨h.1, h.2.1, h.2.2.1, h.2.2.2.1, by decide, fun _ => by decide,
    fun _ => by decide⟩

/-! ### `build_process_tree` and `serialize_process_tree`
(`driver.rs` lines 494-566 and 568-640). -/

/-- `driver.rs` lines 494-500: `struct ProcessInfo`.  `device_path` is a
UTF-16 code-unit vector. -/
structure ProcessInfo where
  pid : Nat
  parent_pid : Nat
  creation_time : Nat
  device_path : List Nat
deriving DecidableEq

/-- Outcome of `open_process` plus the two metadata queries for one
snapshot entry (`driver.rs` lines 510-544): `opened` carries the results
of `get_process_creation_time` and `get_process_device_path` (`none` =
query failed, handled with `unwrap_or`); `skipped` covers the
permission-denied / invalid-input / invalid-parameter kinds that
`continue`; `fatal` is any other open error (the `?` early return). -/
inductive ProcOpenOutcome
  | opened (creation_time : Option Nat) (device_path : Option (List Nat))
  | skipped
  | fatal
deriving DecidableEq

/-- One entry of the `ProcessSnapshot` (`tlhelp32` snapshot): the pid and
parent pid reported by the OS, plus the open outcome for that pid. -/
structure SnapshotEntry where
  pid : Nat
  parent_pid : Nat
  open_outcome : ProcOpenOutcome
deriving DecidableEq

/-- `driver.rs` lines 504-545: the enumeration loop of
`build_process_tree`, producing the `ProcessInfo` map's values (`none`
models the early `Err` return on a fatal open error). -/
def collectProcessInfo : List SnapshotEntry → Option (List ProcessInfo)
  | [] => some []
  | e :: rest =>
    match e.open_outcome with
    | ProcOpenOutcome.skipped => collectProcessInfo rest
    | ProcOpenOutcome.fatal => none
    | ProcOpenOutcome.opened ct dp =>
      (collectProcessInfo rest).map
        (fun infos =>
          { pid := e.pid, parent_pid := e.parent_pid,
            creation_time := ct.getD 0, device_path := dp.getD [] } :: infos)

/-- `driver.rs` lines 548-560: the pid-recycling pass applied to one
entry.  The parent is looked up among the collected entries; only the
`creation_time` field of other entries is ever read, so the in-place
`RefCell` loop of the source is equivalent to this per-entry map. -/
def zeroRecycledParent (procs : List ProcessInfo) (info : ProcessInfo) :
    ProcessInfo :=
  if info.parent_pid = 0 then info
  else
    match procs.find? (fun p => p.pid == info.parent_pid) with
    | some parent_info =>
      if parent_info.creation_time > info.creation_time then
        { info with parent_pid := 0 }
      else info
    | none => info

/-- `driver.rs` lines 503-566: `build_process_tree` (the snapshot's
iteration order is unspecified; the embedding keeps list order). -/
def build_process_tree (snap : List SnapshotEntry) :
    Option (List ProcessInfo) :=
  (collectProcessInfo snap).map
    (fun infos => infos.map (zeroRecycledParent infos))

/-- `driver.rs` lines 577-586: `struct ProcessRegistryEntry` (pids are
stored as native-width handles; `image_name_size` is a `u16`). -/
structure ProcessRegistryEntry where
  pid : Nat
  parent_pid : Nat
  image_name_offset : Nat
  image_name_size : Nat
deriving DecidableEq

/-- `driver.rs` lines 615-637: the entry-serialisation loop of
`serialize_process_tree`, tracking the running string offset.
`image_name_size` truncates to `u16` as the `as u16` cast does. -/
def serialize_process_entries :
    List ProcessInfo → Nat → List ProcessRegistryEntry
  | [], _ => []
  | p :: rest, string_offset =>
    if p.device_path.isEmpty then
      { pid := p.pid, parent_pid := p.parent_pid,
        image_name_offset := 0, image_name_size := 0 }
        :: serialize_process_entries rest string_offset
    else
      { pid := p.pid, parent_pid := p.parent_pid,
        image_name_offset := string_offset,
        image_name_size := (2 * p.device_path.length) % 65536 }
        :: serialize_process_entries rest (string_offset + 2 * p.device_path.length)

lemma find?_eq_of_nodup_pids (procs : List ProcessInfo)
    (parent : ProcessInfo) (k : Nat)
    (hnodup : (procs.map (fun p => p.pid)).Nodup)
    (hmem : parent ∈ procs) (hpid : parent.pid = k) :
    procs.find? (fun p => p.pid == k) = some parent := by
  induction procs with
  | nil => cases hmem
  | cons q rest ih =>
    rw [List.map_cons, List.nodup_cons] at hnodup
    rcases List.mem_cons.mp hmem with hqe | hrest
    · subst hqe
      rw [List.find?_cons_of_pos _ (by simp [hpid])]
    · have hqk : q.pid ≠ k := by
        intro hqk
        exact hnodup.1 (hqk ▸ hpid ▸ List.mem_map_of_mem (fun p => p.pid) hrest)
      rw [List.find?_cons_of_neg _ (by simp [hqk])]
      exact ih hnodup.2 hrest

lemma serialize_process_entries_parent_pids :
    ∀ (procs : List ProcessInfo) (string_offset : Nat),
      (serialize_process_entries procs string_offset).map
          (fun e => e.parent_pid)
        = procs.map (fun p => p.parent_pid)
  | [], _ => rfl
  | p :: rest, string_offset => by
    by_cases h : p.device_path.isEmpty
    · simp [serialize_process_entries, h,
        serialize_process_entries_parent_pids rest string_offset]
    · simp [serialize_process_entries, h,
        serialize_process_entries_parent_pids rest
          (string_offset + 2 * p.device_path.length)]

/-- C7: whenever `build_process_tree` succeeds on a snapshot whose
collected entries have distinct pids, every collected entry whose recorded
`parent_pid` is non-zero and refers to a collected process with a strictly
greater `creation_time` comes out with `parent_pid = 0`; the returned list
is exactly the recycling pass over the collected entries, and serialising
the result preserves all `parent_pid` fields (hence the zeroing reaches
the serialised registry). -/
theorem c7_pid_recycling (snap : List SnapshotEntry)
    (infos : List ProcessInfo) (child parent : ProcessInfo)
    (hcollect : collectProcessInfo snap = some infos)
    (hnodup : (infos.map (fun p => p.pid)).Nodup)
    (hchild : child ∈ infos) (hparent : parent ∈ infos)
    (hnz : child.parent_pid ≠ 0)
    (hpp : parent.pid = child.parent_pid)
    (hyounger : parent.creation_time > child.creation_time) :
    build_process_tree snap = some (infos.map (zeroRecycledParent infos)) ∧
      (zeroRecycledParent infos child).parent_pid = 0 ∧
      zeroRecycledParent infos child ∈ infos.map (zeroRecycledParent infos) ∧
      (serialize_process_entries (infos.map (zeroRecycledParent infos)) 0).map
          (fun e => e.parent_pid)
        = (infos.map (zeroRecycledParent infos)).map (fun p => p.parent_pid) := by
  refine ⟨?_, ?_, List.mem_map_of_mem _ hchild, ?_⟩
  · rw [build_process_tree, hcollect]
    rfl
  · rw [zeroRecycledParent, if_neg hnz,
      find?_eq_of_nodup_pids infos parent child.parent_pid hnodup hparent hpp]
    simp [hyounger]
  · exact serialize_process_entries_parent_pids _ 0

/-- Witness for `c7_pid_recycling`: a two-process snapshot where the
recorded parent is younger than the child. -/
theorem c7_pid_recycling_witness :
    build_process_tree
        [⟨10, 20, ProcOpenOutcome.opened (some 100) none⟩,
          ⟨20, 0, ProcOpenOutcome.opened (some 900) (some [67])⟩]
        = some ([⟨10, 20, 100, []⟩, ⟨20, 0, 900, [67]⟩].map
            (zeroRecycledParent [⟨10, 20, 100, []⟩, ⟨20, 0, 900, [67]⟩])) ∧
      (zeroRecycledParent [⟨10, 20, 100, []⟩, ⟨20, 0, 900, [67]⟩]
          ⟨10, 20, 100, []⟩).parent_pid = 0 ∧
      zeroRecycledParent [⟨10, 20, 100, []⟩, ⟨20, 0, 900, [67]⟩]
          ⟨10, 20, 100, []⟩
        ∈ [⟨10, 20, 100, []⟩, ⟨20, 0, 900, [67]⟩].map
            (zeroRecycledParent [⟨10, 20, 100, []⟩, ⟨20, 0, 900, [67]⟩]) ∧
      (serialize_process_entries
          ([⟨10, 20, 100, []⟩, ⟨20, 0, 900, [67]⟩].map
            (zeroRecycledParent [⟨10, 20, 100, []⟩, ⟨20, 0, 900, [67]⟩])) 0).map
          (fun e => e.parent_pid)
        = ([⟨10, 20, 100, []⟩, ⟨20, 0, 900, [67]⟩].map
            (zeroRecycledParent [⟨10, 20, 100, []⟩, ⟨20, 0, 900, [67]⟩])).map
            (fun p => p.parent_pid) :=
  c7_pid_recycling
    [⟨10, 20, ProcOpenOutcome.opened (some 100) none⟩,
      ⟨20, 0, ProcOpenOutcome.opened (some 900) (some [67])⟩]
    [⟨10, 20, 100, []⟩, ⟨20, 0, 900, [67]⟩]
    ⟨10, 20, 100, []⟩ ⟨20, 0, 900, [67]⟩
    (by decide) (by decide) (by decide) (by decide)
    (by decide) (by decide) (by decide)

/-! ### `parse_event_buffer` and `buffer_to_osstring`
(`driver.rs` lines 110-168, 642-762, 968-981).

Layouts follow the `#[repr(C)]` structs on x86-64: `EventHeader`
(`event_id: u32` at 0, `event_size: usize` at 8, `event_data` at 16),
`SplittingEventHeader` (`process_id` at 0, `reason: u32` at 8,
`image_name_length: u16` at 12, data at 14), `SplittingErrorEventHeader`
(`process_id` at 0, `image_name_length` at 8, data at 10),
`ErrorMessageEventHeader` (`status: i32` at 0, `error_message_length` at
4, data at 6).  All reads are native-endian (little-endian). -/

/-- Read `n` bytes of `buf` little-endian starting at `off`.  A byte
beyond the end of the list reads as 0 (standing in for whatever byte
follows the buffer in memory; no theorem below depends on its value). -/
def readLE (buf : List Nat) : Nat → Nat → Nat
  | _, 0 => 0
  | off, n + 1 => buf.getD off 0 + 256 * readLE buf (off + 1) n

/-- Reinterpret a 32-bit value as a signed `NTSTATUS`. -/
def toI32 (v : Nat) : Int :=
  if v < 2 ^ 31 then (v : Int) else (v : Int) - 2 ^ 32

/-- `driver.rs` lines 113-122: `enum EventId`. -/
inductive EventId
  | StartSplittingProcess
  | StopSplittingProcess
  | ErrorStartSplittingProcess
  | ErrorStopSplittingProcess
  | ErrorMessage
deriving DecidableEq

/-- `driver.rs` lines 113-122: the `u32` discriminants
(0, 1, 0x80000001, 0x80000002, 0x80000003). -/
def eventIdValue : EventId → Nat
  | EventId.StartSplittingProcess => 0
  | EventId.StopSplittingProcess => 1
  | EventId.ErrorStartSplittingProcess => 0x80000001
  | EventId.ErrorStopSplittingProcess => 0x80000002
  | EventId.ErrorMessage => 0x80000003

/-- `driver.rs` lines 128-143: `EventId::try_from` (`none` models
`Err(UnknownEventId)`). -/
def eventIdFromU32 (v : Nat) : Option EventId :=
  if v = 0 then some EventId.StartSplittingProcess
  else if v = 1 then some EventId.StopSplittingProcess
  else if v = 0x80000001 then some EventId.ErrorStartSplittingProcess
  else if v = 0x80000002 then some EventId.ErrorStopSplittingProcess
  else if v = 0x80000003 then some EventId.ErrorMessage
  else none

/-- `driver.rs` lines 145-159: `enum EventBody`.  Decoded strings are the
`u16` code-unit sequences produced by `buffer_to_osstring`. -/
inductive EventBody
  | splittingEvent (process_id : Nat) (reason : Nat) (image : List Nat)
  | splittingError (process_id : Nat) (image : List Nat)
  | errorMessage (status : Int) (message : List Nat)
deriving DecidableEq

/-- Result of `parse_event_buffer`: `panics` models an out-of-bounds
slice index panic (the source documents that it panics on short
buffers), `failure` models the `None` return, `ok` a decoded event. -/
inductive ParseOutcome
  | panics
  | failure
  | ok (id : EventId) (body : EventBody)
deriving DecidableEq

/-- `driver.rs` lines 968-981: `buffer_to_osstring` applied to the slice
of `buf` starting at byte `off` with declared byte length `len`.  It
allocates `(len + 1) / 2` u16 words and copies that many whole words from
the start of the slice — for odd `len` this reads one byte beyond the
declared region (the byte at `off + len`). -/
def buffer_to_osstring (buf : List Nat) (off len : Nat) : List Nat :=
  (List.range ((len + 1) / 2)).map (fun i => readLE buf (off + 2 * i) 2)

/-- Number of u16 units `buffer_to_osstring` copies for a declared byte
length (`out_buf.resize((buffer.len() + 1) / 2, 0u16)` and a
`copy_nonoverlapping` of `out_buf.len()` units). -/
def buffer_to_osstring_units (len : Nat) : Nat := (len + 1) / 2

/-- The byte indices `buffer_to_osstring` reads, relative to the
enclosing buffer: two bytes per copied u16 unit. -/
def bytesReadByOsstring (off len : Nat) : List Nat :=
  (List.range (2 * buffer_to_osstring_units len)).map (fun i => off + i)

/-- Byte offset of the trailing string for each event kind
(`offset_of!(..., image_name_data)` / `error_message_data`). -/
def eventFixedOffset : EventId → Nat
  | EventId.StartSplittingProcess => 14
  | EventId.StopSplittingProcess => 14
  | EventId.ErrorStartSplittingProcess => 10
  | EventId.ErrorStopSplittingProcess => 10
  | EventId.ErrorMessage => 6

/-- The declared string byte length of an event body: a `u16` sitting
immediately before the string data in every event header. -/
def declaredStrLen (id : EventId) (body : List Nat) : Nat :=
  readLE body (eventFixedOffset id - 2) 2

/-- The decoded body for a given kind, header bytes and declared string
length (`driver.rs` lines 695-761).  The splitting reason keeps only the
four known flag bits (`from_bits` / `from_bits_truncate`). -/
def mkEventBody (id : EventId) (body : List Nat) (len : Nat) : EventBody :=
  match id with
  | EventId.StartSplittingProcess =>
    EventBody.splittingEvent (readLE body 0 8) (readLE body 8 4 % 16)
      (buffer_to_osstring body 14 len)
  | EventId.StopSplittingProcess =>
    EventBody.splittingEvent (readLE body 0 8) (readLE body 8 4 % 16)
      (buffer_to_osstring body 14 len)
  | EventId.ErrorStartSplittingProcess =>
    EventBody.splittingError (readLE body 0 8) (buffer_to_osstring body 10 len)
  | EventId.ErrorStopSplittingProcess =>
    EventBody.splittingError (readLE body 0 8) (buffer_to_osstring body 10 len)
  | EventId.ErrorMessage =>
    EventBody.errorMessage (toI32 (readLE body 0 4)) (buffer_to_osstring body 6 len)

/-- Decoding of the per-kind part of the buffer (everything after the
16-byte `EventHeader`): slicing the fixed header panics when the buffer
is shorter than the header, slicing the string panics when the remainder
is shorter than the declared length. -/
def parseBody (id : EventId) (body : List Nat) : ParseOutcome :=
  if body.length < eventFixedOffset id then ParseOutcome.panics
  else if body.length < eventFixedOffset id + declaredStrLen id body then
    ParseOutcome.panics
  else ParseOutcome.ok id (mkEventBody id body (declaredStrLen id body))

/-- `driver.rs` lines 676-762: `parse_event_buffer`.  Slicing the 4-byte
event id panics on a shorter buffer; an unknown id returns `None`;
slicing the 16-byte `EventHeader` panics on a shorter buffer; then the
per-kind body is decoded.  The header's `event_size` field is read but
never used. -/
def parse_event_buffer (buffer : List Nat) : ParseOutcome :=
  if buffer.length < 4 then ParseOutcome.panics
  else
    match eventIdFromU32 (readLE buffer 0 4) with
    | none => ParseOutcome.failure
    | some id =>
      if buffer.length < 16 then ParseOutcome.panics
      else parseBody id (buffer.drop 16)

lemma readLE_append (l extra : List Nat) :
    ∀ (n off : Nat), off + n ≤ l.length →
      readLE (l ++ extra) off n = readLE l off n
  | 0, _, _ => rfl
  | n + 1, off, h => by
    rw [readLE, readLE, List.getD_append l extra 0 off (by omega),
      readLE_append l extra n (off + 1) (by omega)]

lemma buffer_to_osstring_append (l extra : List Nat) (off len : Nat)
    (h : off + 2 * ((len + 1) / 2) ≤ l.length) :
    buffer_to_osstring (l ++ extra) off len = buffer_to_osstring l off len := by
  unfold buffer_to_osstring
  refine List.map_congr_left ?_
  intro i hi
  rw [List.mem_range] at hi
  exact readLE_append l extra 2 (off + 2 * i) (by omega)

lemma declaredStrLen_append (id : EventId) (body extra : List Nat)
    (h : eventFixedOffset id ≤ body.length) :
    declaredStrLen id (body ++ extra) = declaredStrLen id body := by
  unfold declaredStrLen
  cases id <;>
    exact readLE_append body extra 2 _ (by simp_all [eventFixedOffset])

lemma parse_event_buffer_eq_of_id (buffer : List Nat) (id : EventId)
    (h4 : ¬ buffer.length < 4)
    (hid : eventIdFromU32 (readLE buffer 0 4) = some id) :
    parse_event_buffer buffer =
      if buffer.length < 16 then ParseOutcome.panics
      else parseBody id (buffer.drop 16) := by
  rw [parse_event_buffer, if_neg h4, hid]

lemma parseBody_append (id : EventId) (body extra : List Nat)
    (hfo : eventFixedOffset id ≤ body.length)
    (hlen : eventFixedOffset id + declaredStrLen id body ≤ body.length)
    (heven : declaredStrLen id body % 2 = 0) :
    parseBody id (body ++ extra) = parseBody id body := by
  have hd : declaredStrLen id (body ++ extra) = declaredStrLen id body :=
    declaredStrLen_append id body extra hfo
  have hle : body.length ≤ (body ++ extra).length := by
    simp
  unfold parseBody
  rw [hd, if_neg (by omega), if_neg (by omega), if_neg (by omega),
    if_neg (by omega)]
  have hwords : 2 * ((declaredStrLen id body + 1) / 2) = declaredStrLen id body := by
    omega
  cases id <;>
    simp only [mkEventBody, eventFixedOffset, declaredStrLen] at hfo hlen hwords ⊢ <;>
    rw [readLE_append body extra _ _ (by omega),
      buffer_to_osstring_append body extra _ _ (by omega)] <;>
    try rw [readLE_append body extra _ _ (by omega)]

/-- C8 counterexample: the empty buffer (too few bytes for the event id)
makes `parse_event_buffer` panic on the slice `buffer[0..4]`; it is not a
decode failure (`None`) as the claim states. -/
theorem c8_short_buffer_counterexample :
    parse_event_buffer [] = ParseOutcome.panics ∧
      parse_event_buffer [] ≠ ParseOutcome.failure := by
  refine ⟨by decide, by decide⟩

/-- C8 (amended): `parse_event_buffer` totally classifies every buffer,
but short buffers panic rather than failing gracefully: fewer than 4
bytes (event id) panics; a recognised id with fewer than 16 bytes (fixed
`EventHeader`) panics; a body shorter than the per-kind fixed header, or
than the header plus the declared string length, panics; an unrecognised
event id is the only decode failure (`UnknownEventId` → `None`); and
bytes beyond the declared payload are ignored provided the declared
string length is even (for odd lengths the decoder reads one byte past
the declared region, see `c10_osstring_bytes`). -/
theorem c8_parse_classification (buffer extra : List Nat) (id : EventId)
    (b : EventBody) :
    (buffer.length < 4 → parse_event_buffer buffer = ParseOutcome.panics) ∧
      (4 ≤ buffer.length → eventIdFromU32 (readLE buffer 0 4) = none →
        parse_event_buffer buffer = ParseOutcome.failure) ∧
      (eventIdFromU32 (readLE buffer 0 4) = some id → 4 ≤ buffer.length →
        buffer.length < 16 → parse_event_buffer buffer = ParseOutcome.panics) ∧
      (eventIdFromU32 (readLE buffer 0 4) = some id → 16 ≤ buffer.length →
        (buffer.length < 16 + eventFixedOffset id ∨
          buffer.length < 16 + eventFixedOffset id
            + declaredStrLen id (buffer.drop 16)) →
        parse_event_buffer buffer = ParseOutcome.panics) ∧
      (parse_event_buffer buffer = ParseOutcome.ok id b →
        declaredStrLen id (buffer.drop 16) % 2 = 0 →
        parse_event_buffer (buffer ++ extra) = ParseOutcome.ok id b) := by
  refine ⟨fun h4 => ?_, fun h4 hid => ?_, fun hid h4 h16 => ?_,
    fun hid h16 hshort => ?_, fun hok heven => ?_⟩
  · rw [parse_event_buffer, if_pos h4]
  · rw [parse_event_buffer, if_neg (by omega), hid]
  · rw [parse_event_buffer_eq_of_id buffer id (by omega) hid, if_pos h16]
  · have hdrop : (buffer.drop 16).length = buffer.length - 16 := by simp
    rw [parse_event_buffer_eq_of_id buffer id (by omega) hid, if_neg (by omega),
      parseBody]
    rcases hshort with hshort | hshort
    · rw [if_pos (by rw [hdrop]; omega)]
    · by_cases hfo : (buffer.drop 16).length < eventFixedOffset id
      · rw [if_pos hfo]
      · rw [if_neg hfo, if_pos (by rw [hdrop] at hfo ⊢; omega)]
  · by_cases h4 : buffer.length < 4
    · rw [parse_event_buffer, if_pos h4] at hok
      exact absurd hok (by simp)
    · cases hid : eventIdFromU32 (readLE buffer 0 4) with
      | none =>
        rw [parse_event_buffer, if_neg h4, hid] at hok
        exact absurd hok (by simp)
      | some id' =>
        rw [parse_event_buffer_eq_of_id buffer id' h4 hid] at hok
        by_cases h16 : buffer.length < 16
        · rw [if_pos h16] at hok
          exact absurd hok (by simp)
        · rw [if_neg h16, parseBody] at hok
          have hdrop : (buffer.drop 16).length = buffer.length - 16 := by simp
          by_cases hfo : (buffer.drop 16).length < eventFixedOffset id'
          · rw [if_pos hfo] at hok
            exact absurd hok (by simp)
          · rw [if_neg hfo] at hok
            by_cases hsl : (buffer.drop 16).length <
                eventFixedOffset id' + declaredStrLen id' (buffer.drop 16)
            · rw [if_pos hsl] at hok
              exact absurd hok (by simp)
            · rw [if_neg hsl] at hok
              have hid' : id' = id := by
                have := hok
                simp only [ParseOutcome.ok.injEq] at this
                exact this.1
              subst hid'
              have hid2 : eventIdFromU32 (readLE (buffer ++ extra) 0 4)
                  = some id' := by
                rw [readLE_append buffer extra 4 0 (by omega)]
                exact hid
              have h4' : ¬ (buffer ++ extra).length < 4 := by
                simp
                omega
              rw [parse_event_buffer_eq_of_id (buffer ++ extra) id' h4' hid2,
                if_neg (by simp; omega),
                List.drop_append_of_le_length (by omega),
                parseBody_append id' (buffer.drop 16) extra (by omega)
                  (by omega) heven,
                parseBody, if_neg hfo, if_neg hsl]
              exact hok

/-- Witness for `c8_parse_classification` at concrete buffers: an empty
buffer panics; id 9 is a decode failure; a 4-byte buffer with a valid id
panics; a 30-byte splitting event declaring a 5-byte string panics; and a
complete 32-byte splitting event decodes identically with a trailing
garbage byte appended. -/
theorem c8_parse_classification_witness :
    parse_event_buffer [] = ParseOutcome.panics ∧
      parse_event_buffer [9, 0, 0, 0] = ParseOutcome.failure ∧
      parse_event_buffer [0, 0, 0, 0] = ParseOutcome.panics ∧
      parse_event_buffer
        [1, 0, 0, 0, 0, 0, 0, 0, 0, 0, 0, 0, 0, 0, 0, 0,
          2, 0, 0, 0, 0, 0, 0, 0, 1, 0, 0, 0, 5, 0] = ParseOutcome.panics ∧
      parse_event_buffer
        ([1, 0, 0, 0, 0, 0, 0, 0, 0, 0, 0, 0, 0, 0, 0, 0,
          2, 0, 0, 0, 0, 0, 0, 0, 1, 0, 0, 0, 2, 0, 65, 0] ++ [7])
        = ParseOutcome.ok EventId.StopSplittingProcess
            (EventBody.splittingEvent 2 1 [65]) := by
  refine ⟨?_, ?_, ?_, ?_, ?_⟩
  · exact (c8_parse_classification [] [] EventId.StartSplittingProcess
      (EventBody.splittingError 0 [])).1 (by decide)
  · exact (c8_parse_classification [9, 0, 0, 0] [] EventId.StartSplittingProcess
      (EventBody.splittingError 0 [])).2.1 (by decide) (by decide)
  · exact (c8_parse_classification [0, 0, 0, 0] [] EventId.StartSplittingProcess
      (EventBody.splittingError 0 [])).2.2.1 (by decide) (by decide) (by decide)
  · exact (c8_parse_classification
      [1, 0, 0, 0, 0, 0, 0, 0, 0, 0, 0, 0, 0, 0, 0, 0,
        2, 0, 0, 0, 0, 0, 0, 0, 1, 0, 0, 0, 5, 0] []
      EventId.StopSplittingProcess
      (EventBody.splittingError 0 [])).2.2.2.1 (by decide) (by decide)
      (Or.inr (by decide))
  · exact (c8_parse_classification
      [1, 0, 0, 0, 0, 0, 0, 0, 0, 0, 0, 0, 0, 0, 0, 0,
        2, 0, 0, 0, 0, 0, 0, 0, 1, 0, 0, 0, 2, 0, 65, 0] [7]
      EventId.StopSplittingProcess
      (EventBody.splittingEvent 2 1 [65])).2.2.2.2 (by decide) (by decide)

/-- C10: `buffer_to_osstring` copies `(len + 1) / 2` u16 units — i.e.
`((len + 1) / 2) * 2` bytes — out of the declared string region: each
copied unit `i` is the little-endian pair of bytes at `off + 2 * i` and
`off + 2 * i + 1`; for an even declared length all bytes read lie inside
the declared region, while for an odd declared length the byte at
`off + len` — one past the declared region — is read as well. -/
theorem c10_osstring_bytes (buf : List Nat) (off len : Nat) :
    (buffer_to_osstring buf off len).length = buffer_to_osstring_units len ∧
      buffer_to_osstring buf off len =
        (List.range (buffer_to_osstring_units len)).map
          (fun i => buf.getD (off + 2 * i) 0 + 256 * buf.getD (off + 2 * i + 1) 0) ∧
      (len % 2 = 0 → 2 * buffer_to_osstring_units len = len ∧
        ∀ j ∈ bytesReadByOsstring off len, j < off + len) ∧
      (len % 2 = 1 → 2 * buffer_to_osstring_units len = len + 1 ∧
        (off + len) ∈ bytesReadByOsstring off len) := by
  refine ⟨by simp [buffer_to_osstring, buffer_to_osstring_units], ?_,
    fun he => ⟨by unfold buffer_to_osstring_units; omega, ?_⟩,
    fun ho => ⟨by unfold buffer_to_osstring_units; omega, ?_⟩⟩
  · unfold buffer_to_osstring buffer_to_osstring_units
    refine List.map_congr_left ?_
    intro i _
    simp [readLE, Nat.mul_comm]
  · intro j hj
    rcases List.mem_map.mp hj with ⟨i, hi, rfl⟩
    rw [List.mem_range] at hi
    unfold buffer_to_osstring_units at hi
    omega
  · unfold bytesReadByOsstring
    refine List.mem_map.mpr ⟨len, ?_, rfl⟩
    rw [List.mem_range]
    unfold buffer_to_osstring_units
    omega

/-- Witness for `c10_osstring_bytes` at odd length 3 and even length 4. -/
theorem c10_osstring_bytes_witness :
    (2 * buffer_to_osstring_units 3 = 3 + 1 ∧
      (5 + 3) ∈ bytesReadByOsstring 5 3) ∧
      (2 * buffer_to_osstring_units 4 = 4 ∧
        ∀ j ∈ bytesReadByOsstring 5 4, j < 5 + 4) :=
  ⟨(c10_osstring_bytes [] 5 3).2.2.2 (by decide),
    (c10_osstring_bytes [] 5 4).2.2.1 (by decide)⟩
